import Mathlib

/-!
Shallow embedding of `src/web_gui.py` (the Luraph deobfuscator web GUI):
the request decoder, job staging, tool invocation and response encoding of
`WebGuiHandler`, together with the Python library semantics they rely on
(truthiness, `str.strip`, `int()`, UTF-8 decoding, `json.loads`).

Machine-level conventions:
* Python exceptions are modelled by `Except PyErr`; an uncaught exception in
  a handler method is a `.error` result (the HTTP layer then closes the
  connection without sending a response).
* Filesystem effects of a request are recorded as a list of `FsEvent`s and
  subprocess spawn attempts as a list of `ProcCall`s, so that lifetime and
  "no work performed" properties can be stated.
* JSON floating-point literals are modelled as exact decimals `m * 10^e`
  (no claim depends on IEEE rounding or float formatting).
-/

/-- A JSON value as produced by Python `json.loads`.  `num` holds integer
literals; `numF m e` models a float literal with exact decimal value
`m * 10^e`; `nan` and `inf` model the `NaN` / `Infinity` literals that
Python json accepts. -/
inductive Json where
  | null
  | bool (b : Bool)
  | num (n : Int)
  | numF (m : Int) (e : Int)
  | nan
  | inf (neg : Bool)
  | str (s : String)
  | arr (elems : List Json)
  | obj (fields : List (String × Json))

/-- Python truthiness of a loaded JSON value (`bool(x)`): `None`, `False`,
numeric zero, and empty strings/lists/dicts are falsy; `nan` and
infinities are truthy. -/
def Json.truthy : Json → Bool
  | .null => false
  | .bool b => b
  | .num n => n ≠ 0
  | .numF m _ => m ≠ 0
  | .nan => true
  | .inf _ => true
  | .str s => s ≠ ""
  | .arr xs => ¬ xs.isEmpty
  | .obj fs => ¬ fs.isEmpty

/-- Python `repr` of a string as it appears inside `str(dict)` output:
single-quoted with backslash escapes for the quote and backslash
(approximation: control characters are not escaped further; no claim
inspects container `str()` output). -/
def pyReprString (s : String) : String :=
  let q : Char := Char.ofNat 39
  let esc : Char → String := fun c =>
    if c = q then "\\" ++ String.singleton q
    else if c = Char.ofNat 92 then "\\\\"
    else String.singleton c
  String.singleton q ++ String.join (s.data.map esc) ++ String.singleton q

mutual

/-- Python `str()` of a loaded JSON value.  Scalars follow CPython exactly
(`None`, `True`, `False`, integer repr); float formatting is approximated
by `<m>e<e>` since no claim depends on it; containers use `repr`-style
rendering. -/
def Json.pyStr : Json → String
  | .null => "None"
  | .bool b => if b then "True" else "False"
  | .num n => toString n
  | .numF m e => toString m ++ "e" ++ toString e
  | .nan => "nan"
  | .inf neg => if neg then "-inf" else "inf"
  | .str s => s
  | .arr xs => "[" ++ Json.pyReprList xs ++ "]"
  | .obj fs => "\x7b" ++ Json.pyReprFields fs ++ "\x7d"

/-- `repr` of a JSON value when it occurs inside a container. -/
def Json.pyRepr : Json → String
  | .str s => pyReprString s
  | .arr xs => "[" ++ Json.pyReprList xs ++ "]"
  | .obj fs => "\x7b" ++ Json.pyReprFields fs ++ "\x7d"
  | v => Json.pyStr v

/-- Comma-separated `repr` of list elements. -/
def Json.pyReprList : List Json → String
  | [] => ""
  | [x] => Json.pyRepr x
  | x :: xs => Json.pyRepr x ++ ", " ++ Json.pyReprList xs

/-- Comma-separated `repr` of dict entries. -/
def Json.pyReprFields : List (String × Json) → String
  | [] => ""
  | [(k, v)] => pyReprString k ++ ": " ++ Json.pyRepr v
  | (k, v) :: fs => pyReprString k ++ ": " ++ Json.pyRepr v ++ ", " ++ Json.pyReprFields fs

end

/-- The ASCII whitespace characters stripped by Python `str.strip()`
(space, tab, newline, carriage return, vertical tab, form feed; the
Unicode space classes Python also strips are not modelled — no claim
involves them, and restricting to this subset only shrinks the set of
strings we call all-whitespace). -/
def pyIsSpace (c : Char) : Bool :=
  c = ' ' || c = '\t' || c = '\n' || c = '\r' || c = Char.ofNat 11 || c = Char.ofNat 12

/-- Strip leading and trailing whitespace from a character list. -/
def stripChars (s : List Char) : List Char :=
  ((s.dropWhile pyIsSpace).reverse.dropWhile pyIsSpace).reverse

/-- Python `str.strip()` with no argument. -/
def pyStrip (s : String) : String :=
  ⟨stripChars s.data⟩

/-- Digit value of an ASCII decimal digit, if it is one. -/
def digitVal (c : Char) : Option Nat :=
  if '0' ≤ c ∧ c ≤ '9' then some (c.toNat - '0'.toNat) else none

/-- Accumulate a nonempty run of decimal digits into a `Nat`. -/
def digitsToNat : List Char → Option Nat
  | [] => none
  | ds => ds.foldlM (fun acc c => (digitVal c).map (fun d => acc * 10 + d)) 0

/-- Python `int(s)` on the sign-and-digits core (whitespace already
stripped).  Underscore digit separators are not modelled (no claim uses
them). -/
def pyIntCore : List Char → Option Int
  | '+' :: ds => (digitsToNat ds).map Int.ofNat
  | '-' :: ds => (digitsToNat ds).map (fun n => -(Int.ofNat n))
  | ds => (digitsToNat ds).map Int.ofNat

/-- Python `int(s)`: strips surrounding whitespace then parses an optional
sign and a nonempty digit run; anything else raises `ValueError`. -/
def pyInt (s : String) : Option Int :=
  pyIntCore (stripChars s.data)

/-- Is `b` a UTF-8 continuation byte (`0x80..0xBF`)? -/
def isCont (b : Nat) : Bool :=
  0x80 ≤ b ∧ b < 0xC0

/-- Strict UTF-8 decoding of a byte list, as done by Python
`bytes.decode("utf-8")`: rejects stray continuation bytes, overlong
encodings, surrogates and code points above `U+10FFFF`. -/
def utf8Decode : List Nat → Option (List Char)
  | [] => some []
  | b :: rest =>
    if b < 0x80 then
      (utf8Decode rest).map (fun cs => Char.ofNat b :: cs)
    else if b < 0xC2 then
      none
    else if b < 0xE0 then
      match rest with
      | b1 :: rest1 =>
        if isCont b1 then
          (utf8Decode rest1).map (fun cs => Char.ofNat ((b - 0xC0) * 0x40 + (b1 - 0x80)) :: cs)
        else none
      | _ => none
    else if b < 0xF0 then
      match rest with
      | b1 :: b2 :: rest2 =>
        let lo1 : Nat := if b = 0xE0 then 0xA0 else 0x80
        let hi1 : Nat := if b = 0xED then 0xA0 else 0xC0
        if (lo1 ≤ b1 ∧ b1 < hi1) ∧ isCont b2 then
          (utf8Decode rest2).map (fun cs =>
            Char.ofNat ((b - 0xE0) * 0x1000 + (b1 - 0x80) * 0x40 + (b2 - 0x80)) :: cs)
        else none
      | _ => none
    else if b < 0xF5 then
      match rest with
      | b1 :: b2 :: b3 :: rest3 =>
        let lo1 : Nat := if b = 0xF0 then 0x90 else 0x80
        let hi1 : Nat := if b = 0xF4 then 0x90 else 0xC0
        if (lo1 ≤ b1 ∧ b1 < hi1) ∧ isCont b2 ∧ isCont b3 then
          (utf8Decode rest3).map (fun cs =>
            Char.ofNat ((b - 0xF0) * 0x40000 + (b1 - 0x80) * 0x1000 +
              (b2 - 0x80) * 0x40 + (b3 - 0x80)) :: cs)
        else none
      | _ => none
    else none

/-- UTF-8 encoding of one character. -/
def utf8EncodeChar (c : Char) : List Nat :=
  let n := c.toNat
  if n < 0x80 then [n]
  else if n < 0x800 then [0xC0 + n / 0x40, 0x80 + n % 0x40]
  else if n < 0x10000 then
    [0xE0 + n / 0x1000, 0x80 + (n / 0x40) % 0x40, 0x80 + n % 0x40]
  else
    [0xF0 + n / 0x40000, 0x80 + (n / 0x1000) % 0x40,
      0x80 + (n / 0x40) % 0x40, 0x80 + n % 0x40]

/-- UTF-8 encoding of a string (Python `str.encode("utf-8")`). -/
def utf8Encode (s : String) : List Nat :=
  s.data.flatMap utf8EncodeChar

/-- The JSON whitespace characters (`json.decoder` skips exactly
space, tab, newline, carriage return). -/
def jsonWs (c : Char) : Bool :=
  c = ' ' || c = '\t' || c = '\n' || c = '\r'

/-- Skip JSON whitespace. -/
def skipWs (s : List Char) : List Char :=
  s.dropWhile jsonWs

/-- Left brace / right brace characters (written by code point). -/
def lbrace : Char := Char.ofNat 0x7b

/-- Right brace character. -/
def rbrace : Char := Char.ofNat 0x7d

/-- Hexadecimal digit value. -/
def hexVal (c : Char) : Option Nat :=
  if '0' ≤ c ∧ c ≤ '9' then some (c.toNat - '0'.toNat)
  else if 'a' ≤ c ∧ c ≤ 'f' then some (c.toNat - 'a'.toNat + 10)
  else if 'A' ≤ c ∧ c ≤ 'F' then some (c.toNat - 'A'.toNat + 10)
  else none

/-- Value of four hex digits. -/
def hex4 (a b c d : Char) : Option Nat := do
  let x ← hexVal a
  let y ← hexVal b
  let z ← hexVal c
  let w ← hexVal d
  pure (((x * 16 + y) * 16 + z) * 16 + w)

/-- Single-character JSON backslash escapes. -/
def escChar (c : Char) : Option Char :=
  if c = '"' then some '"'
  else if c = '\\' then some '\\'
  else if c = '/' then some '/'
  else if c = 'b' then some (Char.ofNat 8)
  else if c = 'f' then some (Char.ofNat 12)
  else if c = 'n' then some '\n'
  else if c = 'r' then some '\r'
  else if c = 't' then some '\t'
  else none

/-- Body of a JSON string literal, after the opening quote (Python
`py_scanstring`, `strict=True`): returns the decoded characters and the
input remaining after the closing quote.  Unescaped control characters
are rejected; `\uXXXX` surrogate pairs are combined; a lone surrogate
(which Python keeps as an unpaired surrogate code unit, unrepresentable
in `Char`) is modelled as U+FFFD — no claim inspects such strings. -/
def parseJStringF : Nat → List Char → Option (List Char × List Char)
  | 0, _ => none
  | _, [] => none
  | fuel + 1, c :: rest =>
    if c = '"' then some ([], rest)
    else if c = '\\' then
      match rest with
      | [] => none
      | e :: rest1 =>
        if e = 'u' then
          match rest1 with
          | h1 :: h2 :: h3 :: h4 :: rest2 =>
            match hex4 h1 h2 h3 h4 with
            | none => none
            | some n =>
              if 0xD800 ≤ n ∧ n < 0xDC00 then
                match rest2 with
                | e2 :: u2 :: g1 :: g2 :: g3 :: g4 :: rest3 =>
                  if e2 = '\\' ∧ u2 = 'u' then
                    match hex4 g1 g2 g3 g4 with
                    | some m =>
                      if 0xDC00 ≤ m ∧ m < 0xE000 then
                        (parseJStringF fuel rest3).map (fun p =>
                          (Char.ofNat (0x10000 + (n - 0xD800) * 0x400 + (m - 0xDC00)) :: p.1, p.2))
                      else
                        (parseJStringF fuel rest2).map (fun p => (Char.ofNat 0xFFFD :: p.1, p.2))
                    | none =>
                      (parseJStringF fuel rest2).map (fun p => (Char.ofNat 0xFFFD :: p.1, p.2))
                  else
                    (parseJStringF fuel rest2).map (fun p => (Char.ofNat 0xFFFD :: p.1, p.2))
                | _ =>
                  (parseJStringF fuel rest2).map (fun p => (Char.ofNat 0xFFFD :: p.1, p.2))
              else if 0xDC00 ≤ n ∧ n < 0xE000 then
                (parseJStringF fuel rest2).map (fun p => (Char.ofNat 0xFFFD :: p.1, p.2))
              else
                (parseJStringF fuel rest2).map (fun p => (Char.ofNat n :: p.1, p.2))
          | _ => none
        else
          match escChar e with
          | some ch => (parseJStringF fuel rest1).map (fun p => (ch :: p.1, p.2))
          | none => none
    else if c.toNat < 0x20 then none
    else (parseJStringF fuel rest).map (fun p => (c :: p.1, p.2))

/-- `parseJStringF` with enough fuel for its input (each step consumes at
least one character, so `length + 1` steps always suffice). -/
def parseJString (s : List Char) : Option (List Char × List Char) :=
  parseJStringF (s.length + 1) s

/-- ASCII decimal digit test. -/
def isDigit (c : Char) : Bool :=
  '0' ≤ c ∧ c ≤ '9'

/-- Integer part of the JSON number grammar `(0|[1-9][0-9]*)`: a lone `0`
or a nonzero digit followed by a maximal digit run. -/
def parseIntPart : List Char → Option (List Char × List Char)
  | [] => none
  | c :: rest =>
    if c = '0' then some ([c], rest)
    else if isDigit c then
      some (c :: rest.takeWhile isDigit, rest.dropWhile isDigit)
    else none

/-- A JSON number literal per the scanner regex
`(-?(0|[1-9]\d*))(\.\d+)?([eE][+-]?\d+)?`; like the regex, a bare `.` or
exponent marker without digits is simply left unconsumed.  Integer
literals become `Json.num`; a literal with a fraction or exponent becomes
the exact-decimal `Json.numF`. -/
def parseNumber (s : List Char) : Option (Json × List Char) :=
  let neg : Bool := match s with | c :: _ => c = '-' | [] => false
  let s1 := if neg then s.tail else s
  match parseIntPart s1 with
  | none => none
  | some (ip, r1) =>
    let fracRes : List Char × List Char :=
      match r1 with
      | c :: r2 =>
        if c = '.' ∧ ¬ (r2.takeWhile isDigit).isEmpty then
          (r2.takeWhile isDigit, r2.dropWhile isDigit)
        else ([], r1)
      | [] => ([], r1)
    let fds := fracRes.1
    let r3 := fracRes.2
    let expRes : Option Int × List Char :=
      match r3 with
      | c :: r4 =>
        if c = 'e' ∨ c = 'E' then
          match r4 with
          | d :: r5 =>
            if d = '+' ∧ ¬ (r5.takeWhile isDigit).isEmpty then
              (some (Int.ofNat (((r5.takeWhile isDigit).foldl
                (fun a ch => a * 10 + (ch.toNat - '0'.toNat)) 0))), r5.dropWhile isDigit)
            else if d = '-' ∧ ¬ (r5.takeWhile isDigit).isEmpty then
              (some (-(Int.ofNat ((r5.takeWhile isDigit).foldl
                (fun a ch => a * 10 + (ch.toNat - '0'.toNat)) 0))), r5.dropWhile isDigit)
            else if isDigit d then
              (some (Int.ofNat ((r4.takeWhile isDigit).foldl
                (fun a ch => a * 10 + (ch.toNat - '0'.toNat)) 0)), r4.dropWhile isDigit)
            else (none, r3)
          | [] => (none, r3)
        else (none, r3)
      | [] => (none, r3)
    let digitsNat : List Char → Nat := fun ds =>
      ds.foldl (fun a ch => a * 10 + (ch.toNat - '0'.toNat)) 0
    let rest := expRes.2
    match fds, expRes.1 with
    | [], none =>
      let v : Int := Int.ofNat (digitsNat ip)
      some (Json.num (if neg then -v else v), rest)
    | _, _ =>
      let m : Int := Int.ofNat (digitsNat (ip ++ fds))
      let m := if neg then -m else m
      let e : Int := (expRes.1.getD 0) - Int.ofNat fds.length
      some (Json.numF m e, rest)

/-- Drop a literal character sequence, if it is a prefix of the input. -/
def dropLit : List Char → List Char → Option (List Char)
  | [], s => some s
  | c :: cs, d :: ds => if c = d then dropLit cs ds else none
  | _ :: _, [] => none

mutual

/-- One JSON value starting at the given (non-whitespace) position, in the
style of Python `json.scanner._scan_once`: dispatch on the first character
to string / object / array, then the `null` / `true` / `false` literals,
then the number grammar, then `NaN` / `Infinity` / `-Infinity`.  `fuel`
bounds recursion depth; `jsonLoads` supplies more than enough. -/
def parseValue (fuel : Nat) (s : List Char) : Option (Json × List Char) :=
  match fuel with
  | 0 => none
  | fuel + 1 =>
    match s with
    | [] => none
    | c :: rest =>
      if c = '"' then
        (parseJString rest).map (fun p => (Json.str ⟨p.1⟩, p.2))
      else if c = lbrace then
        let s1 := skipWs rest
        match s1 with
        | d :: r1 => if d = rbrace then some (Json.obj [], r1) else parseMembers fuel [] s1
        | [] => none
      else if c = '[' then
        let s1 := skipWs rest
        match s1 with
        | d :: r1 => if d = ']' then some (Json.arr [], r1) else parseItems fuel [] s1
        | [] => none
      else
        match dropLit ['n', 'u', 'l', 'l'] s with
        | some r => some (Json.null, r)
        | none =>
        match dropLit ['t', 'r', 'u', 'e'] s with
        | some r => some (Json.bool true, r)
        | none =>
        match dropLit ['f', 'a', 'l', 's', 'e'] s with
        | some r => some (Json.bool false, r)
        | none =>
        match parseNumber s with
        | some p => some p
        | none =>
        match dropLit ['N', 'a', 'N'] s with
        | some r => some (Json.nan, r)
        | none =>
        match dropLit ['I', 'n', 'f', 'i', 'n', 'i', 't', 'y'] s with
        | some r => some (Json.inf false, r)
        | none =>
        match dropLit ['-', 'I', 'n', 'f', 'i', 'n', 'i', 't', 'y'] s with
        | some r => some (Json.inf true, r)
        | none => none

/-- Members of a JSON object, starting at the opening quote of a key;
pairs are accumulated in input order (duplicate keys are resolved by the
dict lookup taking the last occurrence, as Python `dict(pairs)` does). -/
def parseMembers (fuel : Nat) (acc : List (String × Json)) (s : List Char) :
    Option (Json × List Char) :=
  match fuel with
  | 0 => none
  | fuel + 1 =>
    match s with
    | [] => none
    | c :: rest =>
      if c ≠ '"' then none
      else
        match parseJString rest with
        | none => none
        | some (kcs, r1) =>
          match skipWs r1 with
          | d :: r2 =>
            if d ≠ ':' then none
            else
              match parseValue fuel (skipWs r2) with
              | none => none
              | some (v, r3) =>
                let acc1 := acc ++ [(⟨kcs⟩, v)]
                match skipWs r3 with
                | d2 :: r4 =>
                  if d2 = rbrace then some (Json.obj acc1, r4)
                  else if d2 = ',' then parseMembers fuel acc1 (skipWs r4)
                  else none
                | [] => none
          | [] => none

/-- Items of a JSON array, starting at the first character of a value. -/
def parseItems (fuel : Nat) (acc : List Json) (s : List Char) :
    Option (Json × List Char) :=
  match fuel with
  | 0 => none
  | fuel + 1 =>
    match parseValue fuel s with
    | none => none
    | some (v, r1) =>
      let acc1 := acc ++ [v]
      match skipWs r1 with
      | d :: r2 =>
        if d = ']' then some (Json.arr acc1, r2)
        else if d = ',' then parseItems fuel acc1 (skipWs r2)
        else none
      | [] => none

end

/-- Python `json.loads` on a character sequence: leading and trailing
whitespace allowed, exactly one top-level value; `none` models
`json.JSONDecodeError`. -/
def jsonLoads (s : List Char) : Option Json :=
  match parseValue (4 * s.length + 4) (skipWs s) with
  | none => none
  | some (v, rest) => if (skipWs rest).isEmpty then some v else none

/-- The Python exceptions that can escape or be handled in the handler:
`UnicodeDecodeError` from `raw.decode("utf-8")`, `AttributeError` from
`.get` on a non-dict, `ValueError` from `int()`, `OSError` from file or
subprocess operations.  (`json.JSONDecodeError` is always caught inside
`_read_request_json` and so never appears here.) -/
inductive PyErr where
  | unicodeDecodeError
  | attributeError
  | valueError
  | osError (msg : String)
deriving Repr, DecidableEq

/-- A completed `subprocess.run`: exit code and the two captured text
streams. -/
structure ProcResult where
  returncode : Int
  stdout : String
  stderr : String
deriving Repr, DecidableEq

/-- An inbound HTTP request as the handler sees it: the request path, the
`Content-Length` header (absent or its string value), and the bytes the
client sends as the body. -/
structure Request where
  path : String
  contentLengthHeader : Option String
  body : List Nat

/-- Ambient server configuration fixed at startup: `sys.executable` and
`REPO_ROOT` (the directory of `web_gui.py`). -/
structure Config where
  pyExe : String
  repoRoot : String

/-- Outcomes of the external effects one POST request can perform: the
fresh directory name produced by `tempfile.TemporaryDirectory()`, whether
`temp_path.write_text` raises, and the result of `subprocess.run` (`.error`
models an OS-level spawn failure). -/
structure Env where
  tmpName : String
  writeErr : Option PyErr
  runResult : Except PyErr ProcResult

/-- Filesystem effects recorded while handling a request. -/
inductive FsEvent where
  | mkdir (dir : String)
  | writeFile (path : String) (contents : String)
  | rmtree (dir : String)
deriving Repr, DecidableEq

/-- One attempted subprocess spawn: the argument vector and the working
directory passed to `subprocess.run`. -/
structure ProcCall where
  cmd : List String
  cwd : String
deriving Repr, DecidableEq

/-- A response the handler writes to the client: a JSON body with a
status, an `send_error` page, or the HTML page with its `Content-Length`
value. -/
inductive HttpOut where
  | jsonResp (status : Nat) (payload : List (String × Json))
  | errorResp (status : Nat) (msg : String)
  | htmlResp (status : Nat) (body : List Nat) (contentLength : Nat)

/-- `self.headers.get("Content-Length", "0")`. -/
def contentLengthString (req : Request) : String :=
  req.contentLengthHeader.getD "0"

/-- `int(self.headers.get("Content-Length", "0"))` (line 39). -/
def declaredLength (req : Request) : Except PyErr Int :=
  match pyInt (contentLengthString req) with
  | some n => .ok n
  | none => .error .valueError

/-- `self.rfile.read(n)`: the first `n` bytes the client sent (fewer if
the connection has fewer). -/
def rfileRead (req : Request) (n : Nat) : List Nat :=
  req.body.take n

/-- The number of body bytes `_read_request_json` reads from the
connection: zero when the declared length is non-positive (the single
`rfile.read` call is skipped), otherwise the size of that read. -/
def bytesReadCount (req : Request) : Nat :=
  match declaredLength req with
  | .error _ => 0
  | .ok len => if len ≤ 0 then 0 else (rfileRead req len.toNat).length

/-- `WebGuiHandler._read_request_json` (lines 38-46): parse the declared
length, return `{}` for a non-positive length, otherwise read the body,
decode UTF-8 (decode errors propagate) and parse JSON, degrading a
`json.JSONDecodeError` to `{}`. -/
def readRequestJson (req : Request) : Except PyErr Json :=
  match declaredLength req with
  | .error e => .error e
  | .ok len =>
    if len ≤ 0 then .ok (Json.obj [])
    else
      match utf8Decode (rfileRead req len.toNat) with
      | none => .error .unicodeDecodeError
      | some chars => .ok ((jsonLoads chars).getD (Json.obj []))

/-- Python `dict.get(k)` data: the value at the last occurrence of the key
(JSON object construction via `dict(pairs)` keeps the last duplicate),
absent otherwise. -/
def dictGetOpt (fs : List (String × Json)) (k : String) : Option Json :=
  fs.foldl (fun acc kv => if kv.1 = k then some kv.2 else acc) none

/-- `payload.get(k)`: `None` (modelled `Json.null`) when the key is absent;
`.get` on a non-dict value raises `AttributeError`. -/
def pyGet (v : Json) (k : String) : Except PyErr Json :=
  match v with
  | .obj fs => .ok ((dictGetOpt fs k).getD Json.null)
  | _ => .error .attributeError

/-- `str(v or "")`: Python `or` keeps `v` when truthy and otherwise yields
the right operand `""`; `str` is then applied. -/
def strOrEmpty (v : Json) : String :=
  if v.truthy then v.pyStr else ""

/-- `pathlib` `/` join. -/
def pathJoin (a b : String) : String :=
  a ++ "/" ++ b

/-- The argument vector of lines 73-84: interpreter, tool entry point,
the fixed flags, the staged file as positional input, then
`--script-key <key>` exactly when `script_key` is nonempty. -/
def buildCmd (cfg : Config) (tempPath : String) (scriptKey : String) : List String :=
  [cfg.pyExe, pathJoin cfg.repoRoot "main.py", "--format", "lua", "--no-report",
    "--no-execute-output", "--force", tempPath] ++
  (if scriptKey ≠ "" then ["--script-key", scriptKey] else [])

/-- The response dict of lines 92-97. -/
def responsePayload (r : ProcResult) : List (String × Json) :=
  [("ok", Json.bool (r.returncode = 0)),
   ("returncode", Json.num r.returncode),
   ("output", Json.str r.stdout),
   ("stderr", Json.str r.stderr)]

/-- The result of handling one POST request: the handler outcome (a
response, or an uncaught exception that makes the server close the
connection without responding), the filesystem events performed, and the
subprocess spawns attempted. -/
structure PostOutcome where
  result : Except PyErr HttpOut
  fsTrace : List FsEvent
  procCalls : List ProcCall

/-- `WebGuiHandler.do_POST` (lines 59-98).  Non-`/deobfuscate` paths get a
404; the decoded payload's `source` is coerced with `or ""` and validated
after stripping; accepted requests stage the source under a fresh
temporary directory (whose removal `tempfile.TemporaryDirectory` performs
on every exit path of the `with` block), run the tool, and report
`ok = (returncode == 0)` with the captured streams. -/
def do_POST (cfg : Config) (env : Env) (req : Request) : PostOutcome :=
  if req.path ≠ "/deobfuscate" then
    ⟨.ok (.errorResp 404 "Not Found"), [], []⟩
  else
    match readRequestJson req with
    | .error e => ⟨.error e, [], []⟩
    | .ok payload =>
      match pyGet payload "source" with
      | .error e => ⟨.error e, [], []⟩
      | .ok sv =>
        let source := strOrEmpty sv
        match pyGet payload "script_key" with
        | .error e => ⟨.error e, [], []⟩
        | .ok kv =>
          let scriptKey := pyStrip (strOrEmpty kv)
          if pyStrip source = "" then
            ⟨.ok (.jsonResp 400 [("ok", Json.bool false),
              ("error", Json.str "No source provided.")]), [], []⟩
          else
            let tmpdir := env.tmpName
            let tempPath := pathJoin tmpdir "input.lua"
            match env.writeErr with
            | some e => ⟨.error e, [.mkdir tmpdir, .rmtree tmpdir], []⟩
            | none =>
              let call : ProcCall := ⟨buildCmd cfg tempPath scriptKey, cfg.repoRoot⟩
              match env.runResult with
              | .error e =>
                ⟨.error e,
                  [.mkdir tmpdir, .writeFile tempPath source, .rmtree tmpdir], [call]⟩
              | .ok r =>
                ⟨.ok (.jsonResp 200 (responsePayload r)),
                  [.mkdir tmpdir, .writeFile tempPath source, .rmtree tmpdir], [call]⟩

/-- `WebGuiHandler._send_html` (lines 30-36): encode the page as UTF-8 and
send it with status `HTTPStatus.OK` and `Content-Length` set to
`len(body)`. -/
def sendHtml (payload : String) : HttpOut :=
  .htmlResp 200 (utf8Encode payload) (utf8Encode payload).length

/-- `WebGuiHandler.do_GET` (lines 48-57).  `indexRead` is the outcome of
`INDEX_PATH.read_text(encoding="utf-8")`; the code catches exactly
`OSError`, turning it into a 500 error page. -/
def do_GET (indexRead : Except PyErr String) (req : Request) : Except PyErr HttpOut :=
  if req.path ≠ "/" ∧ req.path ≠ "/index.html" then
    .ok (.errorResp 404 "Not Found")
  else
    match indexRead with
    | .error (.osError _) => .ok (.errorResp 500 "index.html missing")
    | .error e => .error e
    | .ok html => .ok (sendHtml html)

/-- Staging directories still existing after replaying a filesystem trace
(starting from none). -/
def liveDirs (events : List FsEvent) : List String :=
  events.foldl (fun acc e =>
    match e with
    | .mkdir d => acc ++ [d]
    | .rmtree d => acc.filter (fun x => x ≠ d)
    | .writeFile _ _ => acc) []

/-! ### Helper lemmas shared by several claims -/

theorem pyStrip_empty : pyStrip "" = "" := rfl

theorem strOrEmpty_str (s : String) : strOrEmpty (Json.str s) = s := by
  by_cases h : s = ""
  · simp [strOrEmpty, Json.truthy, h]
  · simp [strOrEmpty, Json.truthy, Json.pyStr, h]

theorem strOrEmpty_of_falsy (v : Json) (h : v.truthy = false) : strOrEmpty v = "" := by
  simp [strOrEmpty, h]

/-- Reduction of `do_POST` on the validation-rejection path. -/
theorem do_POST_reject (cfg : Config) (env : Env) (req : Request)
    (fs : List (String × Json))
    (hpath : req.path = "/deobfuscate")
    (hread : readRequestJson req = .ok (Json.obj fs))
    (hsrc : pyStrip (strOrEmpty ((dictGetOpt fs "source").getD Json.null)) = "") :
    do_POST cfg env req =
      ⟨.ok (.jsonResp 400 [("ok", Json.bool false),
        ("error", Json.str "No source provided.")]), [], []⟩ := by
  unfold do_POST
  rw [hread]
  simp [hpath, pyGet, hsrc]

/-- Reduction of `do_POST` on the accepted path with a completed tool run. -/
theorem do_POST_accept_ok (cfg : Config) (env : Env) (req : Request)
    (fs : List (String × Json)) (r : ProcResult)
    (hpath : req.path = "/deobfuscate")
    (hread : readRequestJson req = .ok (Json.obj fs))
    (hsrc : pyStrip (strOrEmpty ((dictGetOpt fs "source").getD Json.null)) ≠ "")
    (hwrite : env.writeErr = none)
    (hrun : env.runResult = .ok r) :
    do_POST cfg env req =
      ⟨.ok (.jsonResp 200 (responsePayload r)),
        [.mkdir env.tmpName,
          .writeFile (pathJoin env.tmpName "input.lua")
            (strOrEmpty ((dictGetOpt fs "source").getD Json.null)),
          .rmtree env.tmpName],
        [⟨buildCmd cfg (pathJoin env.tmpName "input.lua")
            (pyStrip (strOrEmpty ((dictGetOpt fs "script_key").getD Json.null))),
          cfg.repoRoot⟩]⟩ := by
  unfold do_POST
  rw [hread]
  simp [hpath, pyGet, hsrc, hwrite, hrun]

/-- Reduction of `do_POST` on the accepted path when `subprocess.run`
raises. -/
theorem do_POST_accept_err (cfg : Config) (env : Env) (req : Request)
    (fs : List (String × Json)) (e : PyErr)
    (hpath : req.path = "/deobfuscate")
    (hread : readRequestJson req = .ok (Json.obj fs))
    (hsrc : pyStrip (strOrEmpty ((dictGetOpt fs "source").getD Json.null)) ≠ "")
    (hwrite : env.writeErr = none)
    (hrun : env.runResult = .error e) :
    do_POST cfg env req =
      ⟨.error e,
        [.mkdir env.tmpName,
          .writeFile (pathJoin env.tmpName "input.lua")
            (strOrEmpty ((dictGetOpt fs "source").getD Json.null)),
          .rmtree env.tmpName],
        [⟨buildCmd cfg (pathJoin env.tmpName "input.lua")
            (pyStrip (strOrEmpty ((dictGetOpt fs "script_key").getD Json.null))),
          cfg.repoRoot⟩]⟩ := by
  unfold do_POST
  rw [hread]
  simp [hpath, pyGet, hsrc, hwrite, hrun]

/-! ### Claims -/

/-- C1: for every completed POST /deobfuscate invocation, the `ok` field
of the JSON response is true if and only if the external tool's exit code
`returncode` equals 0. -/
theorem c1_ok_iff_zero_returncode (cfg : Config) (env : Env) (req : Request)
    (fs : List (String × Json)) (r : ProcResult)
    (hpath : req.path = "/deobfuscate")
    (hread : readRequestJson req = .ok (Json.obj fs))
    (hsrc : pyStrip (strOrEmpty ((dictGetOpt fs "source").getD Json.null)) ≠ "")
    (hwrite : env.writeErr = none)
    (hrun : env.runResult = .ok r) :
    (do_POST cfg env req).result = .ok (.jsonResp 200 (responsePayload r)) ∧
    (dictGetOpt (responsePayload r) "ok" = some (Json.bool true) ↔ r.returncode = 0) := by
  have h := do_POST_accept_ok cfg env req fs r hpath hread hsrc hwrite hrun
  constructor
  · rw [h]
  · simp [responsePayload, dictGetOpt]

/-- C1 witness: a concrete accepted request whose tool run exits 0. -/
theorem c1_witness :
    (do_POST ⟨"py", "/r"⟩ ⟨"/t", none, .ok ⟨0, "o", "e"⟩⟩
        ⟨"/deobfuscate", some "15", utf8Encode "\x7b\"source\": \"x\"\x7d"⟩).result =
      .ok (.jsonResp 200 (responsePayload ⟨0, "o", "e"⟩)) ∧
    (dictGetOpt (responsePayload (⟨0, "o", "e"⟩ : ProcResult)) "ok" =
        some (Json.bool true) ↔ (0 : Int) = 0) :=
  c1_ok_iff_zero_returncode ⟨"py", "/r"⟩ ⟨"/t", none, .ok ⟨0, "o", "e"⟩⟩
    ⟨"/deobfuscate", some "15", utf8Encode "\x7b\"source\": \"x\"\x7d"⟩
    [("source", Json.str "x")] ⟨0, "o", "e"⟩ rfl rfl
    (by rw [show (dictGetOpt [("source", Json.str "x")] "source").getD Json.null =
        Json.str "x" from rfl, strOrEmpty_str]; decide)
    rfl rfl

/-- C2: for every POST request, whatever the environment does (decode
faults, validation rejection, write failure, spawn failure, completed
run), no staging directory survives the handler: every `mkdir` in the
filesystem trace is matched by a later `rmtree`. -/
theorem c2_staging_dir_removed_on_every_path (cfg : Config) (env : Env) (req : Request) :
    liveDirs (do_POST cfg env req).fsTrace = [] := by
  unfold do_POST
  repeat' split
  all_goals simp [liveDirs, apply_ite]

/-- C3: a POST /deobfuscate request whose decoded payload has `source`
absent, empty, or all-whitespace is answered with a 400 JSON response
carrying `ok = false` and a non-empty `error`, with no filesystem event
and no subprocess spawn. -/
theorem c3_empty_source_rejected_without_side_effects (cfg : Config) (env : Env)
    (req : Request) (fs : List (String × Json))
    (hpath : req.path = "/deobfuscate")
    (hread : readRequestJson req = .ok (Json.obj fs))
    (habsent : dictGetOpt fs "source" = none ∨
      ∃ s, dictGetOpt fs "source" = some (Json.str s) ∧ pyStrip s = "") :
    do_POST cfg env req =
      ⟨.ok (.jsonResp 400 [("ok", Json.bool false),
        ("error", Json.str "No source provided.")]), [], []⟩ ∧
    "No source provided." ≠ "" := by
  refine ⟨?_, by decide⟩
  apply do_POST_reject cfg env req fs hpath hread
  rcases habsent with h | ⟨s, h, hs⟩
  · rw [h]; rfl
  · rw [h]
    simpa [strOrEmpty_str] using hs

/-- C3 witness: a concrete request whose `source` is all whitespace. -/
theorem c3_witness :
    do_POST ⟨"py", "/r"⟩ ⟨"/t", none, .ok ⟨0, "o", "e"⟩⟩
        ⟨"/deobfuscate", some "16", utf8Encode "\x7b\"source\": \"  \"\x7d"⟩ =
      ⟨.ok (.jsonResp 400 [("ok", Json.bool false),
        ("error", Json.str "No source provided.")]), [], []⟩ ∧
    "No source provided." ≠ "" :=
  c3_empty_source_rejected_without_side_effects ⟨"py", "/r"⟩
    ⟨"/t", none, .ok ⟨0, "o", "e"⟩⟩
    ⟨"/deobfuscate", some "16", utf8Encode "\x7b\"source\": \"  \"\x7d"⟩
    [("source", Json.str "  ")] rfl rfl (Or.inr ⟨"  ", rfl, rfl⟩)

/-- C4: for every accepted POST /deobfuscate request, the subprocess is
spawned exactly once with argument vector: interpreter, tool entry point,
`--format lua --no-report --no-execute-output --force`, the staged file
path as positional input, and `--script-key <key>` appended after it
exactly when the trimmed `script_key` is non-empty; the working directory
is the repository root. -/
theorem c4_subprocess_argv_and_cwd (cfg : Config) (env : Env) (req : Request)
    (fs : List (String × Json))
    (hpath : req.path = "/deobfuscate")
    (hread : readRequestJson req = .ok (Json.obj fs))
    (hsrc : pyStrip (strOrEmpty ((dictGetOpt fs "source").getD Json.null)) ≠ "")
    (hwrite : env.writeErr = none) :
    (do_POST cfg env req).procCalls =
      [⟨[cfg.pyExe, pathJoin cfg.repoRoot "main.py", "--format", "lua", "--no-report",
          "--no-execute-output", "--force", pathJoin env.tmpName "input.lua"] ++
        (if pyStrip (strOrEmpty ((dictGetOpt fs "script_key").getD Json.null)) ≠ ""
          then ["--script-key",
            pyStrip (strOrEmpty ((dictGetOpt fs "script_key").getD Json.null))]
          else []),
        cfg.repoRoot⟩] := by
  cases hrun : env.runResult with
  | error e =>
    rw [do_POST_accept_err cfg env req fs e hpath hread hsrc hwrite hrun]
    rfl
  | ok r =>
    rw [do_POST_accept_ok cfg env req fs r hpath hread hsrc hwrite hrun]
    rfl

/-- C4 witness: a concrete request carrying `script_key: "abc"`. -/
theorem c4_witness :
    (do_POST ⟨"py", "/r"⟩ ⟨"/t", none, .ok ⟨0, "o", "e"⟩⟩
        ⟨"/deobfuscate",
          some (toString (utf8Encode
            "\x7b\"source\": \"x\", \"script_key\": \"abc\"\x7d").length),
          utf8Encode "\x7b\"source\": \"x\", \"script_key\": \"abc\"\x7d"⟩).procCalls =
      [⟨["py", pathJoin "/r" "main.py", "--format", "lua", "--no-report",
          "--no-execute-output", "--force", pathJoin "/t" "input.lua"] ++
        (if pyStrip (strOrEmpty ((dictGetOpt
              [("source", Json.str "x"), ("script_key", Json.str "abc")]
              "script_key").getD Json.null)) ≠ ""
          then ["--script-key",
            pyStrip (strOrEmpty ((dictGetOpt
              [("source", Json.str "x"), ("script_key", Json.str "abc")]
              "script_key").getD Json.null))]
          else []),
        "/r"⟩] :=
  c4_subprocess_argv_and_cwd ⟨"py", "/r"⟩ ⟨"/t", none, .ok ⟨0, "o", "e"⟩⟩
    ⟨"/deobfuscate",
      some (toString (utf8Encode
        "\x7b\"source\": \"x\", \"script_key\": \"abc\"\x7d").length),
      utf8Encode "\x7b\"source\": \"x\", \"script_key\": \"abc\"\x7d"⟩
    [("source", Json.str "x"), ("script_key", Json.str "abc")] rfl rfl
    (by rw [show (dictGetOpt [("source", Json.str "x"), ("script_key", Json.str "abc")]
        "source").getD Json.null = Json.str "x" from rfl, strOrEmpty_str]; decide)
    rfl

/-- C5 counterexample: the claim fails as stated.  Body `5` is a
well-formed non-object JSON value: the decoder returns it (not an empty
payload) and `payload.get("source")` then raises `AttributeError`, so the
handler terminates with an uncaught exception instead of a 400 response.
A body that is not valid UTF-8 (the single byte `0xFF`) likewise raises
`UnicodeDecodeError` — `except json.JSONDecodeError` does not catch it —
again an uncaught fault rather than a 400. -/
theorem c5_counterexample_nonobject_body_faults :
    readRequestJson ⟨"/deobfuscate", some "1", [0x35]⟩ = .ok (Json.num 5) ∧
    (do_POST ⟨"py", "/r"⟩ ⟨"/t", none, .ok ⟨0, "o", "e"⟩⟩
        ⟨"/deobfuscate", some "1", [0x35]⟩).result = .error .attributeError ∧
    readRequestJson ⟨"/deobfuscate", some "1", [0xFF]⟩ = .error .unicodeDecodeError ∧
    (do_POST ⟨"py", "/r"⟩ ⟨"/t", none, .ok ⟨0, "o", "e"⟩⟩
        ⟨"/deobfuscate", some "1", [0xFF]⟩).result = .error .unicodeDecodeError :=
  ⟨rfl, rfl, rfl, rfl⟩

/-- C5 (amended): for every body that decodes as UTF-8 but fails JSON
parsing, the decoder degrades to an empty payload and the request is
answered with the ordinary 400 validation rejection, with no file or
process work.  (Bodies that are not valid UTF-8, or that parse to a
non-object JSON value, instead raise uncaught exceptions — see the
counterexample.) -/
theorem c5_amended_malformed_json_soft_fails (cfg : Config) (env : Env)
    (req : Request) (n : Int)
    (hpath : req.path = "/deobfuscate")
    (hlen : declaredLength req = .ok n)
    (hpos : 0 < n)
    (hchars : ∃ chars, utf8Decode (rfileRead req n.toNat) = some chars ∧
      jsonLoads chars = none) :
    do_POST cfg env req =
      ⟨.ok (.jsonResp 400 [("ok", Json.bool false),
        ("error", Json.str "No source provided.")]), [], []⟩ := by
  obtain ⟨chars, hdec, hparse⟩ := hchars
  have hnle : ¬ n ≤ 0 := by omega
  have hread : readRequestJson req = .ok (Json.obj []) := by
    unfold readRequestJson
    rw [hlen]
    simp [hnle, hdec, hparse]
  exact do_POST_reject cfg env req [] hpath hread rfl

/-- C5 witness: the concrete body `abc` (valid UTF-8, invalid JSON). -/
theorem c5_witness :
    do_POST ⟨"py", "/r"⟩ ⟨"/t", none, .ok ⟨0, "o", "e"⟩⟩
        ⟨"/deobfuscate", some "3", utf8Encode "abc"⟩ =
      ⟨.ok (.jsonResp 400 [("ok", Json.bool false),
        ("error", Json.str "No source provided.")]), [], []⟩ :=
  c5_amended_malformed_json_soft_fails ⟨"py", "/r"⟩ ⟨"/t", none, .ok ⟨0, "o", "e"⟩⟩
    ⟨"/deobfuscate", some "3", utf8Encode "abc"⟩ 3 rfl rfl (by decide)
    ⟨"abc".data, rfl, rfl⟩

/-- C6 counterexample: the claim fails as stated.  When `subprocess.run`
raises an `OSError`, the handler does not produce any HTTP response — the
exception escapes `do_POST` uncaught (`http.server` then closes the
connection without writing a status line), so no 500-class response is
sent; the staging directory is nonetheless removed, as the trace shows. -/
theorem c6_counterexample_spawn_failure_sends_no_response :
    (do_POST ⟨"py", "/r"⟩ ⟨"/t", none, .error (.osError "spawn failure")⟩
        ⟨"/deobfuscate", some "15", utf8Encode "\x7b\"source\": \"x\"\x7d"⟩).result =
      .error (.osError "spawn failure") ∧
    (do_POST ⟨"py", "/r"⟩ ⟨"/t", none, .error (.osError "spawn failure")⟩
        ⟨"/deobfuscate", some "15", utf8Encode "\x7b\"source\": \"x\"\x7d"⟩).fsTrace =
      [.mkdir "/t", .writeFile (pathJoin "/t" "input.lua") "x", .rmtree "/t"] := by
  rw [do_POST_accept_err ⟨"py", "/r"⟩ ⟨"/t", none, .error (.osError "spawn failure")⟩
    ⟨"/deobfuscate", some "15", utf8Encode "\x7b\"source\": \"x\"\x7d"⟩
    [("source", Json.str "x")] (.osError "spawn failure") rfl rfl
    (by rw [show (dictGetOpt [("source", Json.str "x")] "source").getD Json.null =
        Json.str "x" from rfl, strOrEmpty_str]; decide)
    rfl rfl]
  refine ⟨rfl, ?_⟩
  simp [dictGetOpt, strOrEmpty_str]

/-- C6 (amended): if spawning the external tool fails at the
operating-system level, the `OSError` propagates out of the handler
uncaught — the failure is neither swallowed nor returned as an empty/ok
result, and no HTTP response of any status is produced — and the staging
directory is still deleted. -/
theorem c6_amended_spawn_failure_propagates_with_cleanup (cfg : Config) (env : Env)
    (req : Request) (fs : List (String × Json)) (m : String)
    (hpath : req.path = "/deobfuscate")
    (hread : readRequestJson req = .ok (Json.obj fs))
    (hsrc : pyStrip (strOrEmpty ((dictGetOpt fs "source").getD Json.null)) ≠ "")
    (hwrite : env.writeErr = none)
    (hrun : env.runResult = .error (.osError m)) :
    (do_POST cfg env req).result = .error (.osError m) ∧
    liveDirs (do_POST cfg env req).fsTrace = [] := by
  rw [do_POST_accept_err cfg env req fs (.osError m) hpath hread hsrc hwrite hrun]
  exact ⟨rfl, by simp [liveDirs]⟩

/-- C6 witness: a concrete spawn failure. -/
theorem c6_witness :
    (do_POST ⟨"py", "/r"⟩ ⟨"/t", none, .error (.osError "enoent")⟩
        ⟨"/deobfuscate", some "15", utf8Encode "\x7b\"source\": \"x\"\x7d"⟩).result =
      .error (.osError "enoent") ∧
    liveDirs (do_POST ⟨"py", "/r"⟩ ⟨"/t", none, .error (.osError "enoent")⟩
        ⟨"/deobfuscate", some "15", utf8Encode "\x7b\"source\": \"x\"\x7d"⟩).fsTrace = [] :=
  c6_amended_spawn_failure_propagates_with_cleanup ⟨"py", "/r"⟩
    ⟨"/t", none, .error (.osError "enoent")⟩
    ⟨"/deobfuscate", some "15", utf8Encode "\x7b\"source\": \"x\"\x7d"⟩
    [("source", Json.str "x")] "enoent" rfl rfl
    (by rw [show (dictGetOpt [("source", Json.str "x")] "source").getD Json.null =
        Json.str "x" from rfl, strOrEmpty_str]; decide)
    rfl rfl

/-- C7: a GET to `/` or `/index.html` with a readable asset returns
status 200, the asset's exact UTF-8 bytes, and a `Content-Length` equal
to that byte count; any other GET path returns 404; an `OSError` reading
the asset returns 500. -/
theorem c7_get_dispatch (idx : Except PyErr String) (req : Request) (html m : String) :
    ((req.path = "/" ∨ req.path = "/index.html") → idx = .ok html →
      do_GET idx req = .ok (.htmlResp 200 (utf8Encode html) (utf8Encode html).length)) ∧
    ((req.path ≠ "/" ∧ req.path ≠ "/index.html") →
      do_GET idx req = .ok (.errorResp 404 "Not Found")) ∧
    ((req.path = "/" ∨ req.path = "/index.html") → idx = .error (.osError m) →
      do_GET idx req = .ok (.errorResp 500 "index.html missing")) := by
  refine ⟨?_, ?_, ?_⟩
  · intro hp hidx
    unfold do_GET
    rcases hp with h | h <;> simp [h, hidx, sendHtml]
  · intro h
    unfold do_GET
    simp [h.1, h.2]
  · intro hp hidx
    unfold do_GET
    rcases hp with h | h <;> simp [h, hidx]

/-- C7 witness: the three branches at concrete requests. -/
theorem c7_witness :
    do_GET (.ok "<p>hi</p>") ⟨"/", none, []⟩ =
      .ok (.htmlResp 200 (utf8Encode "<p>hi</p>") (utf8Encode "<p>hi</p>").length) ∧
    do_GET (.ok "<p>hi</p>") ⟨"/other", none, []⟩ = .ok (.errorResp 404 "Not Found") ∧
    do_GET (.error (.osError "missing")) ⟨"/index.html", none, []⟩ =
      .ok (.errorResp 500 "index.html missing") :=
  ⟨(c7_get_dispatch (.ok "<p>hi</p>") ⟨"/", none, []⟩ "<p>hi</p>" "").1
      (Or.inl rfl) rfl,
    (c7_get_dispatch (.ok "<p>hi</p>") ⟨"/other", none, []⟩ "<p>hi</p>" "").2.1
      ⟨by decide, by decide⟩,
    (c7_get_dispatch (.error (.osError "missing")) ⟨"/index.html", none, []⟩
        "" "missing").2.2 (Or.inr rfl) rfl⟩

/-- C8: the decoder reads exactly the number of body bytes declared by
the `Content-Length` header (whenever the client supplied at least that
many), and reads zero bytes when the header is absent or declares a
non-positive length. -/
theorem c8_read_exactly_declared_length (req : Request) (n : Int) :
    (req.contentLengthHeader = none → bytesReadCount req = 0) ∧
    (declaredLength req = .ok n → n ≤ 0 → bytesReadCount req = 0) ∧
    (declaredLength req = .ok n → 0 < n → n.toNat ≤ req.body.length →
      bytesReadCount req = n.toNat) := by
  refine ⟨?_, ?_, ?_⟩
  · intro h
    simp [bytesReadCount, declaredLength, contentLengthString, h]
    rfl
  · intro hlen hn
    simp [bytesReadCount, hlen, hn]
  · intro hlen hn hle
    have hnle : ¬ n ≤ 0 := by omega
    simp [bytesReadCount, hlen, hnle, rfileRead, List.length_take, Nat.min_eq_left hle]

/-- C8 witness: absent header reads zero bytes; header `5` with six bytes
available reads exactly five. -/
theorem c8_witness :
    bytesReadCount ⟨"/x", none, [1, 2, 3]⟩ = 0 ∧
    bytesReadCount ⟨"/x", some "5", [1, 2, 3, 4, 5, 6]⟩ = (5 : Int).toNat :=
  ⟨(c8_read_exactly_declared_length ⟨"/x", none, [1, 2, 3]⟩ 0).1 rfl,
    (c8_read_exactly_declared_length ⟨"/x", some "5", [1, 2, 3, 4, 5, 6]⟩ 5).2.2
      rfl (by decide) (by decide)⟩

/-- C9: a `source` field holding a falsy JSON value (null, false, 0, "")
is coerced to the empty string by `str(... or "")` and rejected with the
same 400 response as an absent `source`; the same coercion makes a falsy
`script_key` behave exactly as if it were absent (no `--script-key` in
the argument vector). -/
theorem c9_falsy_fields_coerced_empty (cfg : Config) (env : Env) (req : Request)
    (fs : List (String × Json)) (v kv : Json)
    (hpath : req.path = "/deobfuscate")
    (hread : readRequestJson req = .ok (Json.obj fs)) :
    (dictGetOpt fs "source" = some v → v.truthy = false →
      do_POST cfg env req =
        ⟨.ok (.jsonResp 400 [("ok", Json.bool false),
          ("error", Json.str "No source provided.")]), [], []⟩) ∧
    (dictGetOpt fs "script_key" = some kv → kv.truthy = false →
      pyStrip (strOrEmpty ((dictGetOpt fs "source").getD Json.null)) ≠ "" →
      env.writeErr = none →
      (do_POST cfg env req).procCalls =
        [⟨[cfg.pyExe, pathJoin cfg.repoRoot "main.py", "--format", "lua", "--no-report",
            "--no-execute-output", "--force", pathJoin env.tmpName "input.lua"],
          cfg.repoRoot⟩]) := by
  constructor
  · intro hv htr
    apply do_POST_reject cfg env req fs hpath hread
    rw [hv, Option.getD_some, strOrEmpty_of_falsy v htr]
    rfl
  · intro hkv htr hsrc hwrite
    have hkey : pyStrip (strOrEmpty ((dictGetOpt fs "script_key").getD Json.null)) = "" := by
      rw [hkv, Option.getD_some, strOrEmpty_of_falsy kv htr]
      rfl
    cases hrun : env.runResult with
    | error e =>
      rw [do_POST_accept_err cfg env req fs e hpath hread hsrc hwrite hrun, hkey]
      simp [buildCmd]
    | ok r =>
      rw [do_POST_accept_ok cfg env req fs r hpath hread hsrc hwrite hrun, hkey]
      simp [buildCmd]

/-- C9 witness: `source: null` is rejected like an absent source, and
`script_key: ""` yields an argument vector without `--script-key`. -/
theorem c9_witness :
    do_POST ⟨"py", "/r"⟩ ⟨"/t", none, .ok ⟨0, "o", "e"⟩⟩
        ⟨"/deobfuscate", some (toString (utf8Encode "\x7b\"source\": null\x7d").length),
          utf8Encode "\x7b\"source\": null\x7d"⟩ =
      ⟨.ok (.jsonResp 400 [("ok", Json.bool false),
        ("error", Json.str "No source provided.")]), [], []⟩ ∧
    (do_POST ⟨"py", "/r"⟩ ⟨"/t", none, .ok ⟨0, "o", "e"⟩⟩
        ⟨"/deobfuscate",
          some (toString (utf8Encode
            "\x7b\"source\": \"x\", \"script_key\": \"\"\x7d").length),
          utf8Encode "\x7b\"source\": \"x\", \"script_key\": \"\"\x7d"⟩).procCalls =
      [⟨["py", pathJoin "/r" "main.py", "--format", "lua", "--no-report",
          "--no-execute-output", "--force", pathJoin "/t" "input.lua"], "/r"⟩] :=
  ⟨(c9_falsy_fields_coerced_empty ⟨"py", "/r"⟩ ⟨"/t", none, .ok ⟨0, "o", "e"⟩⟩
      ⟨"/deobfuscate", some (toString (utf8Encode "\x7b\"source\": null\x7d").length),
        utf8Encode "\x7b\"source\": null\x7d"⟩
      [("source", Json.null)] Json.null Json.null rfl rfl).1 rfl rfl,
    (c9_falsy_fields_coerced_empty ⟨"py", "/r"⟩ ⟨"/t", none, .ok ⟨0, "o", "e"⟩⟩
      ⟨"/deobfuscate",
        some (toString (utf8Encode
          "\x7b\"source\": \"x\", \"script_key\": \"\"\x7d").length),
        utf8Encode "\x7b\"source\": \"x\", \"script_key\": \"\"\x7d"⟩
      [("source", Json.str "x"), ("script_key", Json.str "")]
      Json.null (Json.str "") rfl rfl).2 rfl rfl
      (by rw [show (dictGetOpt [("source", Json.str "x"), ("script_key", Json.str "")]
          "source").getD Json.null = Json.str "x" from rfl, strOrEmpty_str]; decide)
      rfl⟩

/-- C10: the staged file receives the `source` text verbatim (surrounding
whitespace preserved; trimming is applied only to the validation check),
while `script_key` is stripped of surrounding whitespace before being
passed to the tool. -/
theorem c10_staged_verbatim_key_stripped (cfg : Config) (env : Env) (req : Request)
    (fs : List (String × Json)) (s k : String)
    (hpath : req.path = "/deobfuscate")
    (hread : readRequestJson req = .ok (Json.obj fs))
    (hs : dictGetOpt fs "source" = some (Json.str s))
    (hk : dictGetOpt fs "script_key" = some (Json.str k))
    (hsrc : pyStrip s ≠ "")
    (hwrite : env.writeErr = none) :
    (do_POST cfg env req).fsTrace =
      [.mkdir env.tmpName, .writeFile (pathJoin env.tmpName "input.lua") s,
        .rmtree env.tmpName] ∧
    (do_POST cfg env req).procCalls =
      [⟨buildCmd cfg (pathJoin env.tmpName "input.lua") (pyStrip k), cfg.repoRoot⟩] := by
  have hsrc2 : pyStrip (strOrEmpty ((dictGetOpt fs "source").getD Json.null)) ≠ "" := by
    rw [hs, Option.getD_some, strOrEmpty_str]; exact hsrc
  cases hrun : env.runResult with
  | error e =>
    rw [do_POST_accept_err cfg env req fs e hpath hread hsrc2 hwrite hrun]
    rw [hs, hk, Option.getD_some, Option.getD_some, strOrEmpty_str, strOrEmpty_str]
    exact ⟨rfl, rfl⟩
  | ok r =>
    rw [do_POST_accept_ok cfg env req fs r hpath hread hsrc2 hwrite hrun]
    rw [hs, hk, Option.getD_some, Option.getD_some, strOrEmpty_str, strOrEmpty_str]
    exact ⟨rfl, rfl⟩

/-- C10 witness: a source with surrounding whitespace staged verbatim, a
key stripped before use. -/
theorem c10_witness :
    (do_POST ⟨"py", "/r"⟩ ⟨"/t", none, .ok ⟨0, "o", "e"⟩⟩
        ⟨"/deobfuscate",
          some (toString (utf8Encode
            "\x7b\"source\": \"  print(1)  \", \"script_key\": \" abc \"\x7d").length),
          utf8Encode
            "\x7b\"source\": \"  print(1)  \", \"script_key\": \" abc \"\x7d"⟩).fsTrace =
      [.mkdir "/t", .writeFile (pathJoin "/t" "input.lua") "  print(1)  ",
        .rmtree "/t"] ∧
    (do_POST ⟨"py", "/r"⟩ ⟨"/t", none, .ok ⟨0, "o", "e"⟩⟩
        ⟨"/deobfuscate",
          some (toString (utf8Encode
            "\x7b\"source\": \"  print(1)  \", \"script_key\": \" abc \"\x7d").length),
          utf8Encode
            "\x7b\"source\": \"  print(1)  \", \"script_key\": \" abc \"\x7d"⟩).procCalls =
      [⟨buildCmd ⟨"py", "/r"⟩ (pathJoin "/t" "input.lua") (pyStrip " abc "), "/r"⟩] :=
  c10_staged_verbatim_key_stripped ⟨"py", "/r"⟩ ⟨"/t", none, .ok ⟨0, "o", "e"⟩⟩
    ⟨"/deobfuscate",
      some (toString (utf8Encode
        "\x7b\"source\": \"  print(1)  \", \"script_key\": \" abc \"\x7d").length),
      utf8Encode "\x7b\"source\": \"  print(1)  \", \"script_key\": \" abc \"\x7d"⟩
    [("source", Json.str "  print(1)  "), ("script_key", Json.str " abc ")]
    "  print(1)  " " abc " rfl rfl rfl rfl (by decide) rfl
